import Mathlib

set_option autoImplicit false
set_option linter.unusedVariables false

/-!
Shallow embedding of the luster entity-model core (src/luster/channels.py,
src/luster/file.py, src/luster/client.py).

Python dict payloads are embedded as records whose every key is an `Option`
(`none` encodes the key being absent or carrying JSON null, exactly the cases
collapsed by `dict.get`).  Reading a required key `data["k"]` is embedded as a
bind in the `Option` monad, so a missing required key makes the whole update
fail (the Python `KeyError`).  Fields read with `data.get(k)` become the
`Option` directly and `data.get(k, default)` becomes `getD`.
-/

namespace Luster

/-- Bucket/tag names used by the file model. -/
abbrev Tag := String

/-- Raw payload for `luster.file.File` (the `types.File` dict): every key
optional, `metadata_type` standing for `data["metadata"]["type"]`. -/
structure FileData where
  _id : Option String := none
  tag : Option String := none
  filename : Option String := none
  content_type : Option String := none
  size : Option Nat := none
  metadata_type : Option String := none
  deleted : Option Bool := none
  reported : Option Bool := none
  message_id : Option String := none
  user_id : Option String := none
  server_id : Option String := none
  object_id : Option String := none
deriving Repr, DecidableEq

/-- Attribute state of `luster.file.File` after `_update_from_data`. -/
structure FileState where
  id : String
  tag : String
  filename : String
  content_type : String
  size : Nat
  type : String
  deleted : Bool
  reported : Bool
  message_id : Option String
  user_id : Option String
  server_id : Option String
  object_id : Option String
deriving Repr, DecidableEq

/-- Modelled from the spec: `handle_optional_field` lives in
`luster.internal.helpers`, which is not under src/.  Per the data model, the
deleted/reported flags are optional booleans that default when absent. -/
def handle_optional_field (v : Option Bool) (default : Bool) : Bool :=
  v.getD default

/-- Embedding of `File._update_from_data` and `File._unroll_metadata`
(src/luster/file.py lines 126-143): `_id`, `tag`, `filename`, `content_type`,
`size` and `metadata["type"]` are required, the rest use `.get`. -/
def file_update_from_data (d : FileData) : Option FileState := do
  let i ← d._id
  let tg ← d.tag
  let fn ← d.filename
  let ct ← d.content_type
  let sz ← d.size
  let ty ← d.metadata_type
  pure
    { id := i
      tag := tg
      filename := fn
      content_type := ct
      size := sz
      type := ty
      deleted := handle_optional_field d.deleted false
      reported := handle_optional_field d.reported false
      message_id := d.message_id
      user_id := d.user_id
      server_id := d.server_id
      object_id := d.object_id }

/- Modelled from the spec: `luster.enums.ChannelType` is not under src/.
The known tag set has exactly the five channel-type tags named in the
factory. -/
namespace ChannelType

def TEXT_CHANNEL : String := "TextChannel"

def VOICE_CHANNEL : String := "VoiceChannel"

def SAVED_MESSAGES : String := "SavedMessages"

def DIRECT_MESSAGE : String := "DirectMessage"

def GROUP : String := "Group"

end ChannelType

/-- Raw channel payload: the union of every key any channel variant reads,
each optional, mirroring a Python dict.  `remove` stands for the companion
clear-fields array carried alongside update payloads; no
`_update_from_data` in src/luster/channels.py ever reads it. -/
structure ChannelData where
  _id : Option String := none
  channel_type : Option String := none
  server : Option String := none
  name : Option String := none
  owner : Option String := none
  user : Option String := none
  recipients : Option (List String) := none
  active : Option Bool := none
  description : Option String := none
  nsfw : Option Bool := none
  last_message_id : Option String := none
  icon : Option FileData := none
  remove : List String := []
deriving Repr, DecidableEq

/-- Attribute state of `ServerChannel` (also `VoiceChannel`, which adds
nothing). -/
structure ServerChannelState where
  id : String
  type : String
  server_id : String
  name : String
  description : Option String
  nsfw : Bool
deriving Repr, DecidableEq

/-- Attribute state of `TextChannel`. -/
structure TextChannelState where
  id : String
  type : String
  server_id : String
  name : String
  description : Option String
  nsfw : Bool
  last_message_id : Option String
deriving Repr, DecidableEq

/-- Attribute state of `PrivateChannel`. -/
structure PrivateChannelState where
  id : String
  type : String
deriving Repr, DecidableEq

/-- Attribute state of `SavedMessages`. -/
structure SavedMessagesState where
  id : String
  type : String
  user_id : String
deriving Repr, DecidableEq

/-- Attribute state of `DirectMessage`. -/
structure DirectMessageState where
  id : String
  type : String
  recipient_ids : List String
  active : Bool
  last_message_id : Option String
deriving Repr, DecidableEq

/-- Attribute state of `Group`. -/
structure GroupState where
  id : String
  type : String
  name : String
  owner_id : String
  recipient_ids : List String
  description : Option String
  icon : Option FileState
  nsfw : Bool
  last_message_id : Option String
deriving Repr, DecidableEq

/-- Embedding of `ServerChannel._update_from_data` (channels.py lines
155-162): every slot is reassigned from `data`; `_id`, `channel_type`,
`server`, `name` are required keys. -/
def server_channel_update_from_data (d : ChannelData) : Option ServerChannelState := do
  let i ← d._id
  let t ← d.channel_type
  let sv ← d.server
  let n ← d.name
  pure
    { id := i
      type := t
      server_id := sv
      name := n
      description := d.description
      nsfw := d.nsfw.getD false }

/-- Embedding of `TextChannel._update_from_data` (channels.py lines 209-211):
the `ServerChannel` slots plus `last_message_id` via `.get`. -/
def text_channel_update_from_data (d : ChannelData) : Option TextChannelState := do
  let s ← server_channel_update_from_data d
  pure
    { id := s.id
      type := s.type
      server_id := s.server_id
      name := s.name
      description := s.description
      nsfw := s.nsfw
      last_message_id := d.last_message_id }

/-- Embedding of `PrivateChannel._update_from_data` (channels.py lines
252-254): only `_id` and `channel_type`, both required. -/
def private_channel_update_from_data (d : ChannelData) : Option PrivateChannelState := do
  let i ← d._id
  let t ← d.channel_type
  pure { id := i, type := t }

/-- Embedding of `SavedMessages._update_from_data` (channels.py lines
294-296). -/
def saved_messages_update_from_data (d : ChannelData) : Option SavedMessagesState := do
  let p ← private_channel_update_from_data d
  let u ← d.user
  pure { id := p.id, type := p.type, user_id := u }

/-- Embedding of `DirectMessage._update_from_data` (channels.py lines
320-325). -/
def direct_message_update_from_data (d : ChannelData) : Option DirectMessageState := do
  let p ← private_channel_update_from_data d
  pure
    { id := p.id
      type := p.type
      recipient_ids := d.recipients.getD []
      active := d.active.getD false
      last_message_id := d.last_message_id }

/-- Embedding of `Group._update_from_data` (channels.py lines 369-381).
`name` and `owner` are required; `recipients`, `description`, `nsfw`,
`last_message_id` use `.get` with defaults; `icon` is built through the
`File` constructor when the icon dict is present and truthy (a Python empty
dict is falsy), else set to `None`. -/
def group_update_from_data (d : ChannelData) : Option GroupState := do
  let p ← private_channel_update_from_data d
  let n ← d.name
  let o ← d.owner
  let ic ← match d.icon with
    | some fd =>
      if fd = ({} : FileData) then some none
      else (file_update_from_data fd).map some
    | none => some none
  pure
    { id := p.id
      type := p.type
      name := n
      owner_id := o
      recipient_ids := d.recipients.getD []
      description := d.description
      nsfw := d.nsfw.getD false
      last_message_id := d.last_message_id
      icon := ic }

/-- The icon value `Group._update_from_data` computes from the payload
icon entry: absent or empty (falsy) dict gives `None`, otherwise the result
of the `File` constructor (whose failure fails the whole update, so on a
successful update this coincides with the stored icon). -/
def icon_from_data (icon : Option FileData) : Option FileState :=
  match icon with
  | none => none
  | some fd => if fd = ({} : FileData) then none else file_update_from_data fd

/-- Event-driven update of an existing `ServerChannel`: `_update_from_data`
reassigns every slot from the payload, so the resulting state does not
depend on the previous state of the instance. -/
def server_channel_apply_update (c : ServerChannelState) (d : ChannelData) :
    Option ServerChannelState :=
  server_channel_update_from_data d

/-- Event-driven update of an existing `TextChannel`; every slot is
reassigned from the payload. -/
def text_channel_apply_update (c : TextChannelState) (d : ChannelData) :
    Option TextChannelState :=
  text_channel_update_from_data d

/-- Event-driven update of an existing `PrivateChannel`; every slot is
reassigned from the payload. -/
def private_channel_apply_update (c : PrivateChannelState) (d : ChannelData) :
    Option PrivateChannelState :=
  private_channel_update_from_data d

/-- Event-driven update of an existing `SavedMessages`; every slot is
reassigned from the payload. -/
def saved_messages_apply_update (c : SavedMessagesState) (d : ChannelData) :
    Option SavedMessagesState :=
  saved_messages_update_from_data d

/-- Event-driven update of an existing `DirectMessage`; every slot is
reassigned from the payload. -/
def direct_message_apply_update (c : DirectMessageState) (d : ChannelData) :
    Option DirectMessageState :=
  direct_message_update_from_data d

/-- Event-driven update of an existing `Group`; every slot is reassigned
from the payload. -/
def group_apply_update (g : GroupState) (d : ChannelData) : Option GroupState :=
  group_update_from_data d

/-- The constructor a payload discriminator resolves to. -/
inductive ChannelCtor where
  | textChannel
  | voiceChannel
  | savedMessages
  | directMessage
  | group
  | privateChannel
deriving Repr, DecidableEq

/-- Embedding of `channel_factory` (channels.py lines 33-47): the five known
tags map to their variant constructors and everything else falls back to
`PrivateChannel`. -/
def channel_factory (tp : String) : ChannelCtor :=
  if tp = ChannelType.TEXT_CHANNEL then ChannelCtor.textChannel
  else if tp = ChannelType.VOICE_CHANNEL then ChannelCtor.voiceChannel
  else if tp = ChannelType.SAVED_MESSAGES then ChannelCtor.savedMessages
  else if tp = ChannelType.DIRECT_MESSAGE then ChannelCtor.directMessage
  else if tp = ChannelType.GROUP then ChannelCtor.group
  else ChannelCtor.privateChannel

/-- Raw payload for `Category` (`types.Category` dict). -/
structure CategoryData where
  id : Option String := none
  title : Option String := none
  channels : Option (List String) := none
deriving Repr, DecidableEq

/-- Attribute state of `Category`. -/
structure CategoryState where
  id : String
  title : String
  channel_ids : List String
deriving Repr, DecidableEq

/-- Embedding of `Category._update_from_data` (channels.py lines 423-426). -/
def category_update_from_data (d : CategoryData) : Option CategoryState := do
  let i ← d.id
  let t ← d.title
  pure { id := i, title := t, channel_ids := d.channels.getD [] }

/-- Modelled from the spec: the Cache Store (`luster.cache`) is not under
src/; its `get_channel` accessor is a return-or-absent lookup that never
raises, so the store is embedded as a lookup function. -/
abbrev ChannelCache := String → Option ServerChannelState

/-- Modelled from the spec: Cache Store `upsert` replaces any existing entry
with the same ID. -/
def cache_upsert (c : ChannelCache) (cid : String) (ch : ServerChannelState) :
    ChannelCache :=
  fun q => if q = cid then some ch else c q

/-- Modelled from the spec: Cache Store `remove` drops the entry with the
given ID. -/
def cache_remove (c : ChannelCache) (cid : String) : ChannelCache :=
  fun q => if q = cid then none else c q

/-- The loop body of `Category.channels` (channels.py lines 436-445): walk
`channel_ids` in order, look each up in the cache and append when the lookup
returns a channel. -/
def resolve_channels (get_channel : String → Option ServerChannelState) :
    List String → List ServerChannelState
  | [] => []
  | cid :: rest =>
    match get_channel cid with
    | some ch => ch :: resolve_channels get_channel rest
    | none => resolve_channels get_channel rest

/-- Embedding of `Category.channels` (channels.py lines 428-445): recomputed
from the current `channel_ids` and the current cache on every call; no
resolved list is stored on the category. -/
def category_channels (cat : CategoryState) (cache : ChannelCache) :
    List ServerChannelState :=
  resolve_channels cache cat.channel_ids

/-- Icon argument of `edit`: either a pre-uploaded attachment ID (`str`) or
a raw byte stream (`io.BufferedReader`). -/
inductive IconParam where
  | idRef (attachment_id : String)
  | stream (content : List Nat)
deriving Repr, DecidableEq

/-- Keyword arguments of `_EditChannelMixin.edit`; `none` encodes the
`MISSING` default sentinel (modelled from the spec as falsy and distinct
from `None`, since `luster.internal.helpers` is not under src/).  The inner
`Option` of `description`/`icon` encodes passing `None` to request removal. -/
structure EditParams where
  name : Option String := none
  description : Option (Option String) := none
  icon : Option (Option IconParam) := none
  nsfw : Option Bool := none
deriving Repr, DecidableEq

/-- The outbound `json` dict built by `edit`, with the companion `remove`
array of field names to clear. -/
structure EditChannelJSON where
  name : Option String := none
  description : Option String := none
  icon : Option String := none
  nsfw : Option Bool := none
  remove : List String := []
deriving Repr, DecidableEq

/-- Modelled from the spec: `upsert_remove_value` (from
`luster.internal.helpers`, not under src/) records a field name in the
companion clear-fields array of the outbound payload. -/
def upsert_remove_value (j : EditChannelJSON) (field : String) : EditChannelJSON :=
  { j with remove := j.remove ++ [field] }

/-- HTTP requests `edit` can issue to its collaborators. -/
inductive HttpReq where
  | uploadReq (content : List Nat) (bucket : String)
  | editChannelReq (channel_id : String) (json : EditChannelJSON)
deriving Repr, DecidableEq

/-- The transport collaborator: `upload` returns the attachment ID for a
byte stream, `edit_channel` returns the response payload of
`PATCH /channels/:id`. -/
structure Transport where
  upload : List Nat → String → String
  edit_channel : String → EditChannelJSON → ChannelData

/-- Modelled from the spec: `get_attachment_id` (from
`luster.internal.helpers`, not under src/) passes a pre-uploaded reference ID
through unchanged and first uploads a byte stream to obtain an ID.  The
second component records the requests issued. -/
def get_attachment_id (t : Transport) (icon : IconParam) (bucket : String) :
    String × List HttpReq :=
  match icon with
  | IconParam.idRef a => (a, [])
  | IconParam.stream b => (t.upload b bucket, [HttpReq.uploadReq b bucket])

/-- Embedding of the `json` construction in `_EditChannelMixin.edit`
(channels.py lines 80-99): `if name:` skips both the `MISSING` sentinel and
an empty string; `None` for description/icon goes to the remove array via
`upsert_remove_value`; a byte-stream icon is first uploaded to the `icons`
bucket to obtain an attachment ID.  The second component is the trace of
upload requests issued while building the dict. -/
def build_edit_json (p : EditParams) (t : Transport) :
    EditChannelJSON × List HttpReq :=
  let j0 : EditChannelJSON := {}
  let j1 := match p.name with
    | some n => if n = "" then j0 else { j0 with name := some n }
    | none => j0
  let j2 := match p.description with
    | none => j1
    | some none => upsert_remove_value j1 "Description"
    | some (some ds) => { j1 with description := some ds }
  let step3 := match p.icon with
    | none => (j2, ([] : List HttpReq))
    | some none => (upsert_remove_value j2 "Icon", ([] : List HttpReq))
    | some (some ic) =>
      let r := get_attachment_id t ic "icons"
      ({ j2 with icon := some r.1 }, r.2)
  let j4 := match p.nsfw with
    | none => step3.1
    | some b => { step3.1 with nsfw := some b }
  (j4, step3.2)

/-- Embedding of `_EditChannelMixin.edit` (channels.py lines 53-106) run on a
`Group`: build the `json` dict, and only when it is non-empty (`if json:`,
dict truthiness) call `edit_channel` and construct a new instance of the
same class from the response payload; otherwise fall through returning
`None`.  No attribute of `self` is assigned anywhere in the method.  The
second component is the trace of requests issued. -/
def group_edit (g : GroupState) (p : EditParams) (t : Transport) :
    Option GroupState × List HttpReq :=
  let bj := build_edit_json p t
  if bj.1 = ({} : EditChannelJSON) then (none, bj.2)
  else
    (group_update_from_data (t.edit_channel g.id bj.1),
     bj.2 ++ [HttpReq.editChannelReq g.id bj.1])

/-- Object references: Python object identity for cache-resident entities. -/
abbrev Ref := Nat

/-- A heap of live `Group` instances, keyed by object reference. -/
abbrev GroupHeap := List (Ref × GroupState)

/-- Field lookup through an object reference. -/
def heap_lookup : GroupHeap → Ref → Option GroupState
  | [], _ => none
  | (r, g) :: rest, q => if r = q then some g else heap_lookup rest q

/-- Overwrite the state stored at a reference, allocating nothing. -/
def heap_set : GroupHeap → Ref → GroupState → GroupHeap
  | [], _, _ => []
  | (r, g) :: rest, q, g' =>
    if r = q then (r, g') :: heap_set rest q g'
    else (r, g) :: heap_set rest q g'

/-- Event-driven update of the instance behind `r`: `_update_from_data`
assigns the slots of the existing object in place and returns no value, so
the heap keeps the same references and only the state behind `r` changes. -/
def heap_apply_update (h : GroupHeap) (r : Ref) (d : ChannelData) :
    Option GroupHeap :=
  match heap_lookup h r, group_update_from_data d with
  | some _, some g' => some (heap_set h r g')
  | _, _ => none

/-- `edit` called on the instance behind `r`: the method assigns no attribute
of `self`, so the heap is returned unchanged and the result is a fresh
value. -/
def heap_group_edit (h : GroupHeap) (r : Ref) (p : EditParams) (t : Transport) :
    GroupHeap × Option GroupState × List HttpReq :=
  match heap_lookup h r with
  | none => (h, none, [])
  | some g => (h, group_edit g p t)

/-- Observable state of `Client` (src/luster/client.py): the
`__initialized` flag plus counters for the calls forwarded to the HTTP
handler collaborator. -/
structure ClientState where
  initialized : Bool
  http_handler_inits : Nat
  http_handler_closes : Nat
deriving Repr, DecidableEq

/-- Embedding of `Client._async_init` (client.py lines 61-66): return early
when already initialized, else initialize the HTTP handler and set the
flag. -/
def client_async_init (c : ClientState) : ClientState :=
  if c.initialized then c
  else
    { c with
      http_handler_inits := c.http_handler_inits + 1
      initialized := true }

/-- Embedding of `Client._cleanup` (client.py lines 68-73): return early when
not initialized, else close the HTTP handler and clear the flag. -/
def client_cleanup (c : ClientState) : ClientState :=
  if c.initialized then
    { c with
      http_handler_closes := c.http_handler_closes + 1
      initialized := false }
  else c

/-- The full `ChannelCreate` payload of the spec scenario:
`Group(id "g1", name "Team", owner "u1", recipients ["u1", "u2"])`. -/
def sampleGroupData : ChannelData :=
  { _id := some "g1"
    channel_type := some "Group"
    name := some "Team"
    owner := some "u1"
    recipients := some ["u1", "u2"] }

/-- The `Group` state constructed from `sampleGroupData`. -/
def sampleGroup : GroupState :=
  { id := "g1"
    type := "Group"
    name := "Team"
    owner_id := "u1"
    recipient_ids := ["u1", "u2"]
    description := none
    icon := none
    nsfw := false
    last_message_id := none }

/-- Sample cached server channel with ID `a`. -/
def chA : ServerChannelState :=
  { id := "a"
    type := "TextChannel"
    server_id := "s1"
    name := "alpha"
    description := none
    nsfw := false }

/-- Sample server channel with ID `b`, initially not cached. -/
def chB : ServerChannelState :=
  { id := "b"
    type := "TextChannel"
    server_id := "s1"
    name := "beta"
    description := none
    nsfw := false }

/-- Sample cached server channel with ID `c`. -/
def chC : ServerChannelState :=
  { id := "c"
    type := "VoiceChannel"
    server_id := "s1"
    name := "gamma"
    description := none
    nsfw := false }

/-- Category listing the channel IDs `a`, `b`, `c` in order. -/
def exampleCategory : CategoryState :=
  { id := "cat0", title := "General", channel_ids := ["a", "b", "c"] }

/-- Cache state holding only the channels `a` and `c`. -/
def exampleCache : ChannelCache :=
  fun q => if q = "a" then some chA else if q = "c" then some chC else none

/-- Update payload carrying all four required keys plus new optional
values. -/
def c1Data : ChannelData :=
  { _id := some "g1"
    channel_type := some "Group"
    name := some "Team2"
    owner := some "u1"
    recipients := some ["u1"]
    description := some "alpha"
    nsfw := some true }

/-- The `Group` state produced by applying `c1Data`. -/
def c1Group : GroupState :=
  { id := "g1"
    type := "Group"
    name := "Team2"
    owner_id := "u1"
    recipient_ids := ["u1"]
    description := some "alpha"
    icon := none
    nsfw := true
    last_message_id := none }

/-- Update payload carrying the same `_id` and `channel_type` as
`sampleGroup`. -/
def c2Data : ChannelData :=
  { _id := some "g1"
    channel_type := some "Group"
    name := some "Renamed"
    owner := some "u3" }

/-- The `Group` state produced by applying `c2Data`. -/
def c2Group : GroupState :=
  { id := "g1"
    type := "Group"
    name := "Renamed"
    owner_id := "u3"
    recipient_ids := []
    description := none
    icon := none
    nsfw := false
    last_message_id := none }

/-- Update payload carrying an `_id` and `channel_type` different from
those of `sampleGroup`. -/
def c2DataDiff : ChannelData :=
  { _id := some "g2"
    channel_type := some "DirectMessage"
    name := some "Team"
    owner := some "u1" }

/-- The `Group` state produced by applying `c2DataDiff`: id and type both
reassigned from the payload. -/
def c2GroupDiff : GroupState :=
  { id := "g2"
    type := "DirectMessage"
    name := "Team"
    owner_id := "u1"
    recipient_ids := []
    description := none
    icon := none
    nsfw := false
    last_message_id := none }

/-- Update payload used to exercise idempotence, carrying a clear-fields
array. -/
def c6Data : ChannelData :=
  { _id := some "g1"
    channel_type := some "Group"
    name := some "TeamX"
    owner := some "u1"
    recipients := some ["u1", "u2"]
    remove := ["Description"] }

/-- The `Group` state produced by applying `c6Data`. -/
def c6Group : GroupState :=
  { id := "g1"
    type := "Group"
    name := "TeamX"
    owner_id := "u1"
    recipient_ids := ["u1", "u2"]
    description := none
    icon := none
    nsfw := false
    last_message_id := none }

/-- A live `Group` instance held behind reference `0`. -/
def c7Group : GroupState :=
  { id := "g7"
    type := "Group"
    name := "Old"
    owner_id := "u1"
    recipient_ids := ["u1"]
    description := none
    icon := none
    nsfw := false
    last_message_id := none }

/-- An unrelated live `Group` instance held behind reference `1`. -/
def c7Other : GroupState :=
  { id := "g8"
    type := "Group"
    name := "Other"
    owner_id := "u2"
    recipient_ids := ["u2"]
    description := none
    icon := none
    nsfw := false
    last_message_id := none }

/-- A heap with two live `Group` instances. -/
def c7Heap : GroupHeap := [(0, c7Group), (1, c7Other)]

/-- A `ChannelUpdate` payload for the group behind reference `0`. -/
def c7Data : ChannelData :=
  { _id := some "g7"
    channel_type := some "Group"
    name := some "New"
    owner := some "u1"
    recipients := some ["u1", "u2"] }

/-- The state the instance behind reference `0` mutates to. -/
def c7New : GroupState :=
  { id := "g7"
    type := "Group"
    name := "New"
    owner_id := "u1"
    recipient_ids := ["u1", "u2"]
    description := none
    icon := none
    nsfw := false
    last_message_id := none }

/-- The heap after the in-place update behind reference `0`. -/
def c7HeapAfter : GroupHeap := [(0, c7New), (1, c7Other)]

/-- Edit keyword arguments passing only a new name. -/
def c7Params : EditParams := { name := some "Edited" }

/-- A concrete transport whose `PATCH` response echoes the requested name
back as a full channel payload. -/
def c7Transport : Transport :=
  { upload := fun _ _ => "att0"
    edit_channel := fun cid j =>
      { _id := some cid
        channel_type := some "Group"
        name := j.name
        owner := some "u1" } }

/-- The fresh `Group` instance `edit` constructs from the response. -/
def c7Edited : GroupState :=
  { id := "g7"
    type := "Group"
    name := "Edited"
    owner_id := "u1"
    recipient_ids := []
    description := none
    icon := none
    nsfw := false
    last_message_id := none }

/-- A `Group` whose description is the present string `hello`. -/
def c8Group : GroupState :=
  { id := "g5"
    type := "Group"
    name := "Chat"
    owner_id := "u1"
    recipient_ids := ["u1"]
    description := some "hello"
    icon := none
    nsfw := false
    last_message_id := none }

/-- An update payload flagging `Description` in the clear-fields array and
therefore carrying no `description` key. -/
def c8Data : ChannelData :=
  { _id := some "g5"
    channel_type := some "Group"
    name := some "Chat"
    owner := some "u1"
    recipients := some ["u1"]
    remove := ["Description"] }

/-- The `Group` state after applying `c8Data`: description cleared. -/
def c8After : GroupState :=
  { id := "g5"
    type := "Group"
    name := "Chat"
    owner_id := "u1"
    recipient_ids := ["u1"]
    description := none
    icon := none
    nsfw := false
    last_message_id := none }

/-!
Helper lemmas characterising the update functions: each `_update_from_data`
reads its required keys and copies the optional ones, so a successful update
determines every field of the result from the payload alone.
-/

lemma private_channel_update_from_data_spec (d : ChannelData)
    (p : PrivateChannelState) (h : private_channel_update_from_data d = some p) :
    d._id = some p.id ∧ d.channel_type = some p.type := by
  simp only [private_channel_update_from_data, Option.bind_eq_bind, Option.pure_def,
    Option.bind_eq_some, Option.some.injEq] at h
  obtain ⟨i, hi, t, ht, hp⟩ := h
  subst hp
  exact ⟨hi, ht⟩

lemma server_channel_update_from_data_spec (d : ChannelData)
    (s : ServerChannelState) (h : server_channel_update_from_data d = some s) :
    d._id = some s.id ∧ d.channel_type = some s.type ∧ d.server = some s.server_id ∧
    d.name = some s.name ∧ s.description = d.description ∧
    s.nsfw = d.nsfw.getD false := by
  simp only [server_channel_update_from_data, Option.bind_eq_bind, Option.pure_def,
    Option.bind_eq_some, Option.some.injEq] at h
  obtain ⟨i, hi, t, ht, sv, hsv, n, hn, hs⟩ := h
  subst hs
  exact ⟨hi, ht, hsv, hn, rfl, rfl⟩

lemma group_update_from_data_spec (d : ChannelData) (g : GroupState)
    (h : group_update_from_data d = some g) :
    d._id = some g.id ∧ d.channel_type = some g.type ∧ d.name = some g.name ∧
    d.owner = some g.owner_id ∧ g.recipient_ids = d.recipients.getD [] ∧
    g.description = d.description ∧ g.nsfw = d.nsfw.getD false ∧
    g.last_message_id = d.last_message_id ∧
    g.icon = icon_from_data d.icon := by
  simp only [group_update_from_data, private_channel_update_from_data,
    Option.bind_eq_bind, Option.pure_def, Option.bind_eq_some,
    Option.some.injEq] at h
  obtain ⟨p, ⟨i, hi, t, ht, hp⟩, n, hn, o, ho, hmatch⟩ := h
  subst hp
  rcases hic : d.icon with _ | fd <;> rw [hic] at hmatch <;> dsimp only at hmatch
  · simp only [Option.some_bind, Option.some.injEq] at hmatch
    subst hmatch
    exact ⟨hi, ht, hn, ho, rfl, rfl, rfl, rfl, by simp [icon_from_data, hic]⟩
  · by_cases hfd : fd = ({} : FileData)
    · rw [if_pos hfd] at hmatch
      simp only [Option.some_bind, Option.some.injEq] at hmatch
      subst hmatch
      exact ⟨hi, ht, hn, ho, rfl, rfl, rfl, rfl,
        by simp [icon_from_data, hic, hfd]⟩
    · rw [if_neg hfd] at hmatch
      rcases hfile : file_update_from_data fd with _ | fs <;> rw [hfile] at hmatch
      · simp at hmatch
      · simp only [Option.map_some', Option.some_bind, Option.some.injEq] at hmatch
        subst hmatch
        exact ⟨hi, ht, hn, ho, rfl, rfl, rfl, rfl,
          by simp [icon_from_data, hic, hfd, hfile]⟩

/-- The resolution loop of `Category.channels` is `List.filterMap` over the
cache lookup. -/
lemma resolve_channels_eq_filterMap (f : String → Option ServerChannelState) :
    ∀ l : List String, resolve_channels f l = l.filterMap f := by
  intro l
  induction l with
  | nil => rfl
  | cons cid rest ih =>
    simp only [resolve_channels, List.filterMap_cons]
    cases f cid <;> simp [ih]

lemma heap_set_map_fst (h : GroupHeap) (r : Ref) (g : GroupState) :
    (heap_set h r g).map Prod.fst = h.map Prod.fst := by
  induction h with
  | nil => rfl
  | cons e rest ih =>
    obtain ⟨r0, g0⟩ := e
    by_cases hr : r0 = r <;> simp [heap_set, hr, ih]

lemma heap_lookup_heap_set_self (h : GroupHeap) (r : Ref) (g g' : GroupState)
    (hl : heap_lookup h r = some g) :
    heap_lookup (heap_set h r g') r = some g' := by
  induction h with
  | nil => simp [heap_lookup] at hl
  | cons e rest ih =>
    obtain ⟨r0, g0⟩ := e
    by_cases hr : r0 = r
    · simp [heap_set, heap_lookup, hr]
    · simp only [heap_lookup, if_neg hr] at hl
      simp [heap_set, heap_lookup, hr, ih hl]

lemma heap_lookup_heap_set_ne (h : GroupHeap) (r r' : Ref) (g' : GroupState)
    (hne : r' ≠ r) :
    heap_lookup (heap_set h r g') r' = heap_lookup h r' := by
  induction h with
  | nil => rfl
  | cons e rest ih =>
    obtain ⟨r0, g0⟩ := e
    by_cases hr : r0 = r
    · subst hr
      have hr0 : ¬ (r0 = r') := fun hc => hne hc.symm
      simp [heap_set, heap_lookup, hr0, ih]
    · simp [heap_set, heap_lookup, hr, ih]

/-- C1, counterexample.  The claim says an update payload in which a field
key is absent leaves the current value of that field untouched, and that
after constructing the scenario Group and applying a payload carrying only
the new name, the name is updated and `recipient_ids` is unchanged.  On the
code, applying the name-only payload fails with a `KeyError` (embedded as
`none`), and a payload that carries the required keys but omits
`recipients` resets `recipient_ids` to `[]` instead of leaving
`["u1", "u2"]` untouched. -/
theorem C1_counterexample :
    group_update_from_data sampleGroupData = some sampleGroup ∧
    sampleGroup.recipient_ids = ["u1", "u2"] ∧
    group_apply_update sampleGroup { name := some "Team2" } = none ∧
    (group_apply_update sampleGroup
        { _id := some "g1", channel_type := some "Group",
          name := some "Team2", owner := some "u1" }).map
      GroupState.recipient_ids = some [] := by
  decide

/-- C1, amended.  A successful `Group` update requires the payload to carry
`_id`, `channel_type`, `name` and `owner`; a key present with a real value
overwrites the field, while every optional key absent from the payload
resets its field to the default (`recipients` to `[]`, `description` and
`last_message_id` to absent, `nsfw` to false, `icon` to `None`) rather than
leaving the current value untouched; a present non-empty icon dict is
rebuilt through the `File` constructor. -/
theorem C1_amended (g : GroupState) (d : ChannelData) (g' : GroupState)
    (h : group_apply_update g d = some g') :
    d._id = some g'.id ∧ d.channel_type = some g'.type ∧
    d.name = some g'.name ∧ d.owner = some g'.owner_id ∧
    g'.recipient_ids = d.recipients.getD [] ∧
    g'.description = d.description ∧
    g'.nsfw = d.nsfw.getD false ∧
    g'.last_message_id = d.last_message_id ∧
    g'.icon = icon_from_data d.icon :=
  group_update_from_data_spec d g' h

/-- C1, witness: the amended theorem applied to a concrete full update
payload. -/
theorem C1_witness :
    group_apply_update sampleGroup c1Data = some c1Group ∧
    c1Data._id = some c1Group.id ∧ c1Data.channel_type = some c1Group.type ∧
    c1Data.name = some c1Group.name ∧ c1Data.owner = some c1Group.owner_id ∧
    c1Group.recipient_ids = c1Data.recipients.getD [] ∧
    c1Group.description = c1Data.description ∧
    c1Group.nsfw = c1Data.nsfw.getD false ∧
    c1Group.last_message_id = c1Data.last_message_id ∧
    c1Group.icon = icon_from_data c1Data.icon := by
  have h : group_apply_update sampleGroup c1Data = some c1Group := by decide
  exact ⟨h, C1_amended sampleGroup c1Data c1Group h⟩

/-- C2, counterexample.  The claim says no application of the update method
with any delta payload changes the id or the type tag.  On the code, the
update reassigns both from the payload: applying a payload with
`_id = "g2"` and `channel_type = "DirectMessage"` to the Group with id
`g1` and type `Group` yields id `g2` and type `DirectMessage`. -/
theorem C2_counterexample :
    sampleGroup.id = "g1" ∧ sampleGroup.type = "Group" ∧
    (group_apply_update sampleGroup
        { _id := some "g2", channel_type := some "DirectMessage",
          name := some "Team", owner := some "u1" }).map GroupState.id =
      some "g2" ∧
    (group_apply_update sampleGroup
        { _id := some "g2", channel_type := some "DirectMessage",
          name := some "Team", owner := some "u1" }).map GroupState.type =
      some "DirectMessage" := by
  decide

/-- C2, amended.  The update method reassigns `id` and `type` from the
required payload keys `_id` and `channel_type`, so after any successful
update the id is unchanged exactly when the delta carries the current id,
and the type is unchanged exactly when the delta carries the current type:
a delta carrying a different `_id` or `channel_type` changes them.  This
holds for server, private and group channels alike. -/
theorem C2_amended :
    (∀ (s : ServerChannelState) (d : ChannelData) (s' : ServerChannelState),
      server_channel_apply_update s d = some s' →
      (s'.id = s.id ↔ d._id = some s.id) ∧
      (s'.type = s.type ↔ d.channel_type = some s.type)) ∧
    (∀ (p : PrivateChannelState) (d : ChannelData) (p' : PrivateChannelState),
      private_channel_apply_update p d = some p' →
      (p'.id = p.id ↔ d._id = some p.id) ∧
      (p'.type = p.type ↔ d.channel_type = some p.type)) ∧
    (∀ (g : GroupState) (d : ChannelData) (g' : GroupState),
      group_apply_update g d = some g' →
      (g'.id = g.id ↔ d._id = some g.id) ∧
      (g'.type = g.type ↔ d.channel_type = some g.type)) := by
  refine ⟨?_, ?_, ?_⟩
  · intro s d s' h
    obtain ⟨hi, ht, -⟩ := server_channel_update_from_data_spec d s' h
    constructor
    · constructor
      · intro he
        rw [← he]
        exact hi
      · intro hc
        exact Option.some_inj.mp (hi.symm.trans hc)
    · constructor
      · intro he
        rw [← he]
        exact ht
      · intro hc
        exact Option.some_inj.mp (ht.symm.trans hc)
  · intro p d p' h
    obtain ⟨hi, ht⟩ := private_channel_update_from_data_spec d p' h
    constructor
    · constructor
      · intro he
        rw [← he]
        exact hi
      · intro hc
        exact Option.some_inj.mp (hi.symm.trans hc)
    · constructor
      · intro he
        rw [← he]
        exact ht
      · intro hc
        exact Option.some_inj.mp (ht.symm.trans hc)
  · intro g d g' h
    obtain ⟨hi, ht, -⟩ := group_update_from_data_spec d g' h
    constructor
    · constructor
      · intro he
        rw [← he]
        exact hi
      · intro hc
        exact Option.some_inj.mp (hi.symm.trans hc)
    · constructor
      · intro he
        rw [← he]
        exact ht
      · intro hc
        exact Option.some_inj.mp (ht.symm.trans hc)

/-- C2, witness: the amended theorem applied to a delta carrying the
current `_id` and `channel_type` of the sample group (id and type
preserved) and to a delta carrying different ones (id changed). -/
theorem C2_witness :
    group_apply_update sampleGroup c2Data = some c2Group ∧
    c2Data._id = some sampleGroup.id ∧
    c2Data.channel_type = some sampleGroup.type ∧
    c2Group.id = sampleGroup.id ∧ c2Group.type = sampleGroup.type ∧
    group_apply_update sampleGroup c2DataDiff = some c2GroupDiff ∧
    c2DataDiff._id ≠ some sampleGroup.id ∧
    ¬ c2GroupDiff.id = sampleGroup.id := by
  have h : group_apply_update sampleGroup c2Data = some c2Group := by decide
  have h2 := C2_amended.2.2 sampleGroup c2Data c2Group h
  have hd : group_apply_update sampleGroup c2DataDiff = some c2GroupDiff := by
    decide
  have h3 := C2_amended.2.2 sampleGroup c2DataDiff c2GroupDiff hd
  refine ⟨h, by decide, by decide, h2.1.mpr (by decide), h2.2.mpr (by decide),
    hd, by decide, ?_⟩
  intro he
  exact absurd (h3.1.mp he) (by decide)

/-- C3: the channel-variant factory is a pure total function over type
tags: each of the five known tags maps to its matching variant constructor,
every other tag maps to the minimal `PrivateChannel` constructor, and
constructing a `PrivateChannel` from any payload carrying `_id` and
`channel_type` succeeds, exposing exactly that id and type. -/
theorem C3 :
    channel_factory ChannelType.TEXT_CHANNEL = ChannelCtor.textChannel ∧
    channel_factory ChannelType.VOICE_CHANNEL = ChannelCtor.voiceChannel ∧
    channel_factory ChannelType.SAVED_MESSAGES = ChannelCtor.savedMessages ∧
    channel_factory ChannelType.DIRECT_MESSAGE = ChannelCtor.directMessage ∧
    channel_factory ChannelType.GROUP = ChannelCtor.group ∧
    (∀ tp : String, tp ≠ ChannelType.TEXT_CHANNEL →
      tp ≠ ChannelType.VOICE_CHANNEL → tp ≠ ChannelType.SAVED_MESSAGES →
      tp ≠ ChannelType.DIRECT_MESSAGE → tp ≠ ChannelType.GROUP →
      channel_factory tp = ChannelCtor.privateChannel) ∧
    (∀ (d : ChannelData) (i t : String), d._id = some i →
      d.channel_type = some t →
      private_channel_update_from_data d = some { id := i, type := t }) := by
  refine ⟨by decide, by decide, by decide, by decide, by decide, ?_, ?_⟩
  · intro tp h1 h2 h3 h4 h5
    unfold channel_factory
    rw [if_neg h1, if_neg h2, if_neg h3, if_neg h4, if_neg h5]
  · intro d i t hi ht
    simp [private_channel_update_from_data, hi, ht]

/-- C3, witness: an unrecognized tag falls back to `PrivateChannel` and the
construction succeeds on a payload with only `_id` and `channel_type`. -/
theorem C3_witness :
    channel_factory "VeryNewChannelType" = ChannelCtor.privateChannel ∧
    private_channel_update_from_data
        { _id := some "ch0", channel_type := some "VeryNewChannelType" } =
      some { id := "ch0", type := "VeryNewChannelType" } :=
  ⟨C3.2.2.2.2.2.1 "VeryNewChannelType" (by decide) (by decide) (by decide)
      (by decide) (by decide),
   C3.2.2.2.2.2.2
     { _id := some "ch0", channel_type := some "VeryNewChannelType" }
     "ch0" "VeryNewChannelType" rfl rfl⟩

/-- C4: for every category and cache state, `channels()` returns exactly
the cache-resident channels among `channel_ids`, in the order the ids
appear, silently skipping absent ids (the function is total, so it never
raises); in particular with ids `a`, `b`, `c` and only `a` and `c` cached
it returns the entities for `a` then `c`. -/
theorem C4 :
    (∀ (cat : CategoryState) (cache : ChannelCache),
      category_channels cat cache = cat.channel_ids.filterMap cache) ∧
    category_channels exampleCategory exampleCache = [chA, chC] :=
  ⟨fun cat cache => resolve_channels_eq_filterMap cache cat.channel_ids,
   by decide⟩

/-- C5: `channels()` recomputes from the current `channel_ids` and cache at
every call: upserting a channel whose id is listed makes it appear in the
next result, and removing a listed id leaves exactly the other listed,
cached channels. -/
theorem C5 (cat : CategoryState) (c : ChannelCache) (i : String)
    (ch : ServerChannelState) (hmem : i ∈ cat.channel_ids) :
    ch ∈ category_channels cat (cache_upsert c i ch) ∧
    (∀ x, x ∈ category_channels cat (cache_remove c i) ↔
      ∃ j, j ∈ cat.channel_ids ∧ j ≠ i ∧ c j = some x) := by
  constructor
  · rw [category_channels, resolve_channels_eq_filterMap, List.mem_filterMap]
    exact ⟨i, hmem, by simp [cache_upsert]⟩
  · intro x
    rw [category_channels, resolve_channels_eq_filterMap, List.mem_filterMap]
    constructor
    · rintro ⟨j, hj, hx⟩
      by_cases hji : j = i
      · subst hji
        simp [cache_remove] at hx
      · exact ⟨j, hj, hji, by simpa [cache_remove, hji] using hx⟩
    · rintro ⟨j, hj, hji, hx⟩
      exact ⟨j, hj, by simpa [cache_remove, hji] using hx⟩

/-- C5, witness: upserting the channel `b` into an empty cache makes it
appear in the recomputed result for the category listing `a`, `b`, `c`. -/
theorem C5_witness :
    chB ∈ category_channels exampleCategory
      (cache_upsert (fun _ => none) "b" chB) :=
  (C5 exampleCategory (fun _ => none) "b" chB (by decide)).1

/-- C6: partial update is idempotent for every channel entity and every
delta payload, including deltas carrying a clear-fields array: applying the
same delta twice yields the same state as applying it once (the update
reassigns every slot from the payload, so the result does not depend on the
previous state). -/
theorem C6 :
    (∀ (c c' : ServerChannelState) (d : ChannelData),
      server_channel_apply_update c d = some c' →
      server_channel_apply_update c' d = some c') ∧
    (∀ (c c' : TextChannelState) (d : ChannelData),
      text_channel_apply_update c d = some c' →
      text_channel_apply_update c' d = some c') ∧
    (∀ (p p' : PrivateChannelState) (d : ChannelData),
      private_channel_apply_update p d = some p' →
      private_channel_apply_update p' d = some p') ∧
    (∀ (s s' : SavedMessagesState) (d : ChannelData),
      saved_messages_apply_update s d = some s' →
      saved_messages_apply_update s' d = some s') ∧
    (∀ (m m' : DirectMessageState) (d : ChannelData),
      direct_message_apply_update m d = some m' →
      direct_message_apply_update m' d = some m') ∧
    (∀ (g g' : GroupState) (d : ChannelData),
      group_apply_update g d = some g' →
      group_apply_update g' d = some g') :=
  ⟨fun _ _ _ h => h, fun _ _ _ h => h, fun _ _ _ h => h,
   fun _ _ _ h => h, fun _ _ _ h => h, fun _ _ _ h => h⟩

/-- C6, witness: applying the concrete delta a second time reproduces the
state the first application produced. -/
theorem C6_witness :
    group_apply_update sampleGroup c6Data = some c6Group ∧
    group_apply_update c6Group c6Data = some c6Group := by
  have h : group_apply_update sampleGroup c6Data = some c6Group := by decide
  exact ⟨h, C6.2.2.2.2.2 sampleGroup c6Group c6Data h⟩

/-- C7: the event-driven update mutates the entity in place and returns no
new object: the heap keeps exactly the same references, the reference held
before the update observes the updated fields, and every other reference is
untouched.  A successful `edit`, by contrast, assigns no attribute of the
existing instance (the heap is returned unchanged) and returns a new
instance of the same class constructed from the response payload of the
transport. -/
theorem C7 :
    (∀ (h : GroupHeap) (r : Ref) (d : ChannelData) (h' : GroupHeap),
      heap_apply_update h r d = some h' →
      h'.map Prod.fst = h.map Prod.fst ∧
      heap_lookup h' r = group_update_from_data d ∧
      ∀ r', r' ≠ r → heap_lookup h' r' = heap_lookup h r') ∧
    (∀ (h : GroupHeap) (r : Ref) (p : EditParams) (t : Transport),
      (heap_group_edit h r p t).1 = h) ∧
    (∀ (g : GroupState) (p : EditParams) (t : Transport) (g' : GroupState),
      (group_edit g p t).1 = some g' →
      (build_edit_json p t).1 ≠ ({} : EditChannelJSON) ∧
      group_update_from_data
          (t.edit_channel g.id (build_edit_json p t).1) = some g' ∧
      (group_edit g p t).2 =
        (build_edit_json p t).2 ++
          [HttpReq.editChannelReq g.id (build_edit_json p t).1]) := by
  refine ⟨?_, ?_, ?_⟩
  · intro h r d h' hup
    unfold heap_apply_update at hup
    rcases hl : heap_lookup h r with _ | g0
    · rw [hl] at hup
      simp at hup
    · rcases hu : group_update_from_data d with _ | gnew
      · rw [hl, hu] at hup
        simp at hup
      · rw [hl, hu] at hup
        dsimp only at hup
        obtain rfl : heap_set h r gnew = h' := Option.some_inj.mp hup
        refine ⟨heap_set_map_fst h r gnew, ?_, ?_⟩
        · exact heap_lookup_heap_set_self h r g0 gnew hl
        · intro r' hr'
          exact heap_lookup_heap_set_ne h r r' gnew hr'
  · intro h r p t
    unfold heap_group_edit
    rcases hl : heap_lookup h r with _ | g <;> rfl
  · intro g p t g' hg
    simp only [group_edit] at hg ⊢
    by_cases hj : (build_edit_json p t).1 = ({} : EditChannelJSON)
    · rw [if_pos hj] at hg
      simp at hg
    · rw [if_neg hj] at hg
      exact ⟨hj, hg, by rw [if_neg hj]⟩

/-- C7, witness: the in-place update and the edit flow exercised on a
concrete two-object heap and a concrete transport. -/
theorem C7_witness :
    heap_apply_update c7Heap 0 c7Data = some c7HeapAfter ∧
    c7HeapAfter.map Prod.fst = c7Heap.map Prod.fst ∧
    heap_lookup c7HeapAfter 0 = group_update_from_data c7Data ∧
    heap_lookup c7HeapAfter 1 = heap_lookup c7Heap 1 ∧
    (heap_group_edit c7Heap 0 c7Params c7Transport).1 = c7Heap ∧
    (group_edit c7Group c7Params c7Transport).1 = some c7Edited ∧
    group_update_from_data
        (c7Transport.edit_channel c7Group.id
          (build_edit_json c7Params c7Transport).1) = some c7Edited := by
  have h1 : heap_apply_update c7Heap 0 c7Data = some c7HeapAfter := by decide
  have h2 := C7.1 c7Heap 0 c7Data c7HeapAfter h1
  have h3 : (group_edit c7Group c7Params c7Transport).1 = some c7Edited := by
    decide
  have h4 := C7.2.2 c7Group c7Params c7Transport c7Edited h3
  exact ⟨h1, h2.1, h2.2.1, h2.2.2 1 (by decide),
    C7.2.1 c7Heap 0 c7Params c7Transport, h3, h4.2.1⟩

/-- C8: a `Group` whose description is the present string `hello`, updated
with a delta that flags `Description` in the companion clear-fields array
(and therefore carries no description key), ends with its description
absent, never the literal sentinel value. -/
theorem C8 (g : GroupState) (d : ChannelData) (g' : GroupState)
    (hdesc : g.description = some "hello")
    (hflag : "Description" ∈ d.remove)
    (habsent : d.description = none)
    (h : group_apply_update g d = some g') :
    g'.description = none := by
  have hs := group_update_from_data_spec d g' h
  rw [hs.2.2.2.2.2.1]
  exact habsent

/-- C8, witness: the remove-sentinel scenario on a concrete group. -/
theorem C8_witness :
    c8Group.description = some "hello" ∧
    "Description" ∈ c8Data.remove ∧
    c8Data.description = none ∧
    group_apply_update c8Group c8Data = some c8After ∧
    c8After.description = none := by
  have h : group_apply_update c8Group c8Data = some c8After := by decide
  exact ⟨by decide, by decide, by decide, h,
    C8 c8Group c8Data c8After (by decide) (by decide) (by decide) h⟩

/-- C9: calling `edit` with every parameter left at the `MISSING` sentinel
builds an empty `json` dict, so it issues no request to the transport
(empty trace), constructs no new instance, returns `None`, and leaves the
fields of the entity unchanged (the heap is returned as it was). -/
theorem C9 :
    (∀ (g : GroupState) (t : Transport),
      group_edit g
        { name := none, description := none, icon := none, nsfw := none } t =
        (none, [])) ∧
    (∀ (h : GroupHeap) (r : Ref) (t : Transport),
      heap_group_edit h r
        { name := none, description := none, icon := none, nsfw := none } t =
        (h, none, [])) := by
  constructor
  · intro g t
    rfl
  · intro h r t
    unfold heap_group_edit
    rcases hl : heap_lookup h r with _ | g <;> rfl

/-- C10: client initialization and cleanup are guarded by the initialized
flag: `_async_init` on an initialized client does nothing (no further HTTP
handler initialization), `_cleanup` on a non-initialized client does
nothing (no close); after `_async_init` the flag is true and after
`_cleanup` it is false. -/
theorem C10 (c : ClientState) :
    (c.initialized = true → client_async_init c = c) ∧
    (c.initialized = false → client_cleanup c = c) ∧
    (client_async_init c).initialized = true ∧
    (client_cleanup c).initialized = false := by
  obtain ⟨b, ni, nc⟩ := c
  cases b <;> simp [client_async_init, client_cleanup]

/-- C10, witness: the guards and flag transitions at concrete client
states. -/
theorem C10_witness :
    client_async_init ⟨true, 1, 0⟩ = ⟨true, 1, 0⟩ ∧
    client_cleanup ⟨false, 1, 1⟩ = ⟨false, 1, 1⟩ ∧
    (client_async_init ⟨false, 0, 0⟩).initialized = true ∧
    (client_cleanup ⟨true, 1, 0⟩).initialized = false :=
  ⟨(C10 ⟨true, 1, 0⟩).1 rfl, (C10 ⟨false, 1, 1⟩).2.1 rfl,
   (C10 ⟨false, 0, 0⟩).2.2.1, (C10 ⟨true, 1, 0⟩).2.2.2⟩

end Luster
